import Mathlib

/-!
Shallow embedding of the task-orchestration core of the crawl4ai-web
repository: the task data model from app/models/response.py, the task
registry and executor from app/services/crawler_service.py, the result
normalization function, the WebSocket connection manager from
app/api/websocket.py, and two API code paths from app/api/crawler.py.

Modelling conventions: timestamps are natural-number ticks supplied by
the caller of each operation; the float progress field is an exact
rational, carrying the values 0, 0.1, 0.3, 0.8 and 1.0 that the code
assigns; the external crawl engine call is a parameter of the executor
(either an engine-result object or a raised exception); duck-typed
engine output objects are records of optional attributes.
-/

namespace Crawl4aiWeb

/-- The TaskStatus enum of app/models/response.py. -/
inductive TaskStatus
  | pending
  | running
  | completed
  | failed
  | cancelled
  deriving DecidableEq, Repr

/-- Terminal statuses of the data model: completed, failed, cancelled. -/
def TaskStatus.isTerminal : TaskStatus → Bool
  | .completed => true
  | .failed => true
  | .cancelled => true
  | _ => false

/-- The string value of a TaskStatus member (its enum value). -/
def statusValue : TaskStatus → String
  | .pending => "pending"
  | .running => "running"
  | .completed => "completed"
  | .failed => "failed"
  | .cancelled => "cancelled"

/-- A Python scalar value as it may appear inside duck-typed engine
output collections: None, a string, an int, or a bool. -/
inductive PyVal
  | vnone
  | vstr (s : String)
  | vint (n : Int)
  | vbool (b : Bool)
  deriving DecidableEq, Repr

/-- Python str() applied to a scalar value. -/
def pyStr : PyVal → String
  | .vnone => "None"
  | .vstr s => s
  | .vint n => toString n
  | .vbool b => if b then "True" else "False"

/-- A Python object appearing as one entry of a links or images
collection: either a dict with scalar values or a bare scalar. -/
inductive PyObj
  | dict (entries : List (String × PyVal))
  | scalar (v : PyVal)
  deriving DecidableEq, Repr

/-- Lookup in a Python dict modelled as an association list. -/
def assocLookup {α : Type} : List (String × α) → String → Option α
  | [], _ => none
  | (k, v) :: rest, key => if k = key then some v else assocLookup rest key

/-- CrawlResultModel of app/models/response.py (the pdf field, unused
by the service code, is omitted; link and image entries are dicts of
strings, metadata a dict of scalars). -/
structure CrawlResultModel where
  url : String
  title : Option String
  markdown : Option String
  html : Option String
  text : Option String
  extracted_content : Option String
  screenshot : Option String
  links : List (List (String × String))
  images : List (List (String × String))
  metadata : List (String × PyVal)
  crawl_time : Option Nat
  content_size : Option Nat
  deriving DecidableEq, Repr

/-- The error_details dict built by execute_crawl_task on failure. -/
structure ErrorDetails where
  error_type : String
  traceback : String
  deriving DecidableEq, Repr

/-- TaskResponseModel of app/models/response.py. -/
structure TaskRecord where
  task_id : String
  status : TaskStatus
  progress : Rat
  result : Option CrawlResultModel
  error : Option String
  error_details : Option ErrorDetails
  created_at : Nat
  updated_at : Nat
  completed_at : Option Nat
  config : Option (List (String × PyVal))
  deriving DecidableEq, Repr

/-- A duck-typed engine output object as read by _convert_result via
hasattr and getattr: every attribute is optional (none models both a
missing attribute and an attribute holding None, which the code treats
alike at every read site). -/
structure EngineResult where
  title : Option String := none
  markdown : Option String := none
  cleaned_html : Option String := none
  text : Option String := none
  extracted_content : Option String := none
  screenshot : Option String := none
  links : Option (List (String × List PyObj)) := none
  media : Option (List (String × List PyObj)) := none
  metadata : Option PyObj := none
  deriving DecidableEq, Repr

/-- Value coercion performed in the image-dict loop of _convert_result
(crawler_service.py lines 252-259): None becomes the empty string and
every other scalar goes through str(). -/
def coerceImgVal : PyVal → String
  | .vnone => ""
  | v => pyStr v

/-- One iteration of the image loop of _convert_result (lines
249-262): a dict keeps its own keys with coerced values; a non-dict
entry becomes a dict with the keys url, alt, title. -/
def processImage : PyObj → List (String × String)
  | .dict entries => entries.map fun kv => (kv.1, coerceImgVal kv.2)
  | .scalar v => [("url", pyStr v), ("alt", ""), ("title", "")]

/-- One iteration of the link loop of _convert_result (lines 267-274):
a dict is reduced to its url and text entries (dict.get with default
empty string, then str()); a non-dict entry becomes its str() as url
with empty text. -/
def processLink : PyObj → List (String × String)
  | .dict entries =>
      [("url", pyStr ((assocLookup entries "url").getD (.vstr ""))),
       ("text", pyStr ((assocLookup entries "text").getD (.vstr "")))]
  | .scalar v => [("url", pyStr v), ("text", "")]

/-- The source image list of _convert_result (line 248): nonempty only
when the media attribute exists, is truthy (a nonempty dict), and has
an images key. -/
def internalImages (r : EngineResult) : List PyObj :=
  match r.media with
  | none => []
  | some m => if m = [] then [] else (assocLookup m "images").getD []

/-- The source link list of _convert_result (line 266): nonempty only
when the links attribute exists, is truthy, and has an internal key. -/
def internalLinks (r : EngineResult) : List PyObj :=
  match r.links with
  | none => []
  | some m => if m = [] then [] else (assocLookup m "internal").getD []

/-- Metadata defaulting of _convert_result (lines 277-281): a missing
attribute, None, or a non-dict value all become the empty dict. -/
def metadataDict (r : EngineResult) : List (String × PyVal) :=
  match r.metadata with
  | some (.dict d) => d
  | _ => []

/-- CrawlerService._convert_result (crawler_service.py lines 244-296). -/
def convert_result (r : EngineResult) (url : String) (crawlTime : Nat) :
    CrawlResultModel :=
  { url := url
    title := r.title
    markdown := r.markdown
    html := r.cleaned_html
    text := r.text
    extracted_content := r.extracted_content
    screenshot := r.screenshot
    links := (internalLinks r).map processLink
    images := (internalImages r).map processImage
    metadata := metadataDict r
    crawl_time := some crawlTime
    content_size := some (r.markdown.getD "").length }

/-- The except branch of CrawlerService._mock_crawl (crawler_service.py
lines 228-242): when the page fetch or parse inside the mock engine
raises an exception whose message is msg, the function catches it and
returns this ErrorResult object instead of propagating the exception. -/
def mockCrawlError (url msg : String) : EngineResult :=
  { title := some "Error"
    markdown := some ("# Error\n\nFailed to crawl " ++ url ++ ": " ++ msg)
    cleaned_html := some ("<p>Error: " ++ msg ++ "</p>")
    text := some ("Error: " ++ msg)
    extracted_content := some ("Error: " ++ msg)
    screenshot := none
    links := some [("internal", [])]
    media := some [("images", [])]
    metadata := some (.dict [("url", .vstr url), ("error", .vstr msg),
                             ("mock_crawl", .vbool true)]) }

/-- The task dictionary of CrawlerService (self.tasks). -/
abbrev Registry := List (String × TaskRecord)

/-- Dictionary read self.tasks.get(task_id). -/
def lookupTask (st : Registry) (id : String) : Option TaskRecord :=
  assocLookup st id

/-- Dictionary write self.tasks[task_id] = rec (replace or append). -/
def setTask : Registry → String → TaskRecord → Registry
  | [], id, rec => [(id, rec)]
  | (k, v) :: rest, id, rec =>
      if k = id then (id, rec) :: rest else (k, v) :: setTask rest id rec

/-- Task creation as performed by the API layer together with
CrawlerService.create_task (crawler.py lines 38-51): a fresh
TaskResponseModel with status pending, progress 0, a config snapshot
and no result or error is stored under the task id. -/
def create_task (id : String) (cfg : List (String × PyVal)) (now : Nat)
    (st : Registry) : Registry :=
  setTask st id
    { task_id := id, status := .pending, progress := 0, result := none,
      error := none, error_details := none, created_at := now,
      updated_at := now, completed_at := none, config := some cfg }

/-- CrawlerService.cancel_task (crawler_service.py lines 78-89). -/
def cancel_task (id : String) (now : Nat) (st : Registry) :
    Bool × Registry :=
  match lookupTask st id with
  | none => (false, st)
  | some task =>
      if task.status = .pending ∨ task.status = .running then
        (true, setTask st id { task with status := .cancelled, updated_at := now })
      else
        (false, st)

/-- WebSocket events emitted by the executor through the broadcast
helper functions of crawler_service.py (lines 333-370). -/
inductive WsEvent
  | taskUpdate (id : String) (status : TaskStatus) (progress : Rat)
  | taskCompleted (id : String)
  | taskError (id : String) (error : String)
  deriving DecidableEq, Repr

/-- Where inside the try block of execute_crawl_task an exception was
raised: in crawler acquisition, in the engine call, or in result
conversion. The progress field keeps the value last assigned before
that point, since the except branch does not touch progress. -/
inductive FailPoint
  | duringSetup
  | duringCrawl
  | duringConvert
  deriving DecidableEq, Repr

/-- Progress retained by a task that failed at the given point. -/
def failProgress : FailPoint → Rat
  | .duringSetup => 1 / 10
  | .duringCrawl => 3 / 10
  | .duringConvert => 4 / 5

/-- The task_update events already emitted before a failure at the
given point. -/
def failUpdates (id : String) : FailPoint → List WsEvent
  | .duringSetup => [.taskUpdate id .running (1 / 10)]
  | .duringCrawl =>
      [.taskUpdate id .running (1 / 10), .taskUpdate id .running (3 / 10)]
  | .duringConvert =>
      [.taskUpdate id .running (1 / 10), .taskUpdate id .running (3 / 10),
       .taskUpdate id .running (4 / 5)]

/-- Outcome of the crawl step inside execute_crawl_task: the engine
call returns a result object, or an exception with message, type name
and traceback is raised at some point of the try block. -/
inductive CrawlOutcome
  | ok (r : EngineResult)
  | exn (p : FailPoint) (msg ty tb : String)
  deriving DecidableEq, Repr

/-- CrawlerService.execute_crawl_task (crawler_service.py lines
91-163) taken as one atomic step, returning the new registry and the
list of events the run hands to the broadcast helpers. An unknown id
returns immediately. On success the record is driven through the
progress checkpoints to completed with progress 1, the converted
result, and a completion timestamp; the error fields are left as they
were. On an exception the record becomes failed with the error
recorded and progress retaining its last assigned value; the result
field is left as it was. There is no check of the current status: a
record in any state, terminal states included, is overwritten. -/
def execute_crawl_task (id url : String) (outcome : CrawlOutcome)
    (crawlTime now : Nat) (st : Registry) : Registry × List WsEvent :=
  match lookupTask st id with
  | none => (st, [])
  | some task =>
      match outcome with
      | .ok r =>
          (setTask st id
            { task with
              status := .completed
              progress := 1
              result := some (convert_result r url crawlTime)
              updated_at := now
              completed_at := some now },
           [.taskUpdate id .running (1 / 10), .taskUpdate id .running (3 / 10),
            .taskUpdate id .running (4 / 5), .taskCompleted id])
      | .exn p msg ty tb =>
          (setTask st id
            { task with
              status := .failed
              progress := failProgress p
              error := some msg
              error_details := some { error_type := ty, traceback := tb }
              updated_at := now
              completed_at := some now },
           failUpdates id p ++ [.taskError id msg])

/-- The operations that mutate the task registry. -/
inductive Op
  | create (id : String) (cfg : List (String × PyVal)) (now : Nat)
  | cancel (id : String) (now : Nat)
  | execute (id url : String) (outcome : CrawlOutcome) (crawlTime now : Nat)

/-- Effect of one operation on the registry. -/
def step (st : Registry) : Op → Registry
  | .create id cfg now => create_task id cfg now st
  | .cancel id now => (cancel_task id now st).2
  | .execute id url outcome ct now => (execute_crawl_task id url outcome ct now st).1

/-- Run a sequence of operations from a starting registry. -/
def run (st : Registry) (ops : List Op) : Registry := ops.foldl step st

/-- Number of execute operations for a given id in a sequence. -/
def countExec (ops : List Op) (id : String) : Nat :=
  ops.countP fun op =>
    match op with
    | .execute j _ _ _ _ => j == id
    | _ => false

/-- The await point inside execute_crawl_task at which the
asyncio.wait_for cancellation raised by the quick_crawl timeout lands,
together with the task-record state already committed at that point.
CancelledError derives from BaseException (Python 3.8 and later), so
the except-Exception handler of the executor does not catch it and the
record keeps whatever was committed before the interruption. -/
inductive InterruptPoint
  | beforeStart
  | afterProgress01
  | afterProgress03
  | afterProgress08
  | afterCompleted (r : EngineResult)
  | afterFailed (p : FailPoint) (msg ty tb : String)

/-- The registry state left behind by an executor run interrupted by
cancellation at the given await point. -/
def interruptedExecute (id url : String) (ip : InterruptPoint)
    (crawlTime now : Nat) (st : Registry) : Registry :=
  match lookupTask st id with
  | none => st
  | some task =>
      match ip with
      | .beforeStart => st
      | .afterProgress01 =>
          setTask st id { task with status := .running, progress := 1 / 10, updated_at := now }
      | .afterProgress03 =>
          setTask st id { task with status := .running, progress := 3 / 10, updated_at := now }
      | .afterProgress08 =>
          setTask st id { task with status := .running, progress := 4 / 5, updated_at := now }
      | .afterCompleted r =>
          (execute_crawl_task id url (.ok r) crawlTime now st).1
      | .afterFailed p msg ty tb =>
          (execute_crawl_task id url (.exn p msg ty tb) crawlTime now st).1

/-- Responses of the quick_crawl endpoint (crawler.py lines 473-544):
the success dict, the failure-info dict, the HTTP 408 timeout error,
and the HTTP 500 wrapper. -/
inductive QuickResponse
  | success (taskId : String) (result : Option CrawlResultModel) (crawlTime : Option Nat)
  | failureInfo (taskId : String) (error : Option String) (status : String)
  | timeout408 (timeoutSecs : Nat)
  | error500 (msg : String)
  deriving DecidableEq, Repr

/-- quick_crawl when the executor finishes within the timeout
(crawler.py lines 494-528): create the task, run the executor, then
read the final record and answer with the success dict when completed,
the failure-info dict otherwise. -/
def quick_crawl_completed (id url : String) (cfg : List (String × PyVal))
    (outcome : CrawlOutcome) (crawlTime now : Nat) (st0 : Registry) :
    Registry × QuickResponse :=
  let st1 := create_task id cfg now st0
  let st2 := (execute_crawl_task id url outcome crawlTime now st1).1
  match lookupTask st2 id with
  | none => (st2, .failureInfo id none "unknown")
  | some t =>
      if t.status = .completed then
        (st2, .success id t.result (t.result.bind CrawlResultModel.crawl_time))
      else
        (st2, .failureInfo id t.error (statusValue t.status))

/-- quick_crawl when asyncio.wait_for times out (crawler.py lines
507-536): the executor coroutine is cancelled at whatever await point
it reached (wait_for awaits that cancellation before raising), then
cancel_task is issued, then HTTP 408 is returned. -/
def quick_crawl_timeout (id url : String) (cfg : List (String × PyVal))
    (ip : InterruptPoint) (crawlTime now : Nat) (timeoutSecs : Nat)
    (st0 : Registry) : Registry × QuickResponse :=
  let st1 := create_task id cfg now st0
  let st2 := interruptedExecute id url ip crawlTime now st1
  ((cancel_task id now st2).2, .timeout408 timeoutSecs)

/-- The status a later get shows after the quick_crawl timeout path:
cancelled, unless the executor had already committed a terminal state
before the interruption, in which case that state stays. -/
def expectedAfterTimeout : InterruptPoint → TaskStatus
  | .afterCompleted _ => .completed
  | .afterFailed _ _ _ _ => .failed
  | _ => .cancelled

/-- Responses of the get_task_result endpoint (crawler.py lines
165-215): 404 for an unknown task or a missing result, 400 for a task
not yet completed, a content dict for the three recognized formats,
and the full result model otherwise. -/
inductive ResultResponse
  | http404 (detail : String)
  | http400 (detail : String)
  | content (body : Option String) (fmt : String)
  | fullResult (r : CrawlResultModel)
  deriving DecidableEq, Repr

/-- get_task_result (crawler.py lines 165-215), with the task lookup
already performed. -/
def get_task_result (task : Option TaskRecord) (fmt : String) : ResultResponse :=
  match task with
  | none => .http404 "Task not found"
  | some t =>
      if t.status ≠ .completed then .http400 "Task is not completed yet"
      else
        match t.result with
        | none => .http404 "No result available"
        | some r =>
            if fmt = "markdown" then .content r.markdown "markdown"
            else if fmt = "html" then .content r.html "html"
            else if fmt = "text" then .content r.text "text"
            else .fullResult r

/-- State of the ConnectionManager (websocket.py lines 17-22): the
connection table keyed by client id (the socket objects themselves are
modelled by the fails parameter of the send functions) and the
per-task subscriber sets, each set modelled as its list of elements in
iteration order. -/
structure HubState where
  active_connections : List String
  task_subscribers : List (String × List String)
  deriving DecidableEq, Repr

/-- ConnectionManager.disconnect (websocket.py lines 30-42): drop the
client from the connection table, remove it from every subscriber set
it occurs in, and delete a set that becomes empty by this removal. -/
def hubDisconnect (cid : String) (st : HubState) : HubState :=
  { active_connections := st.active_connections.filter fun c => c ≠ cid
    task_subscribers := st.task_subscribers.filterMap fun ts =>
      if ts.2.contains cid then
        let rest := ts.2.filter fun c => c ≠ cid
        if rest = [] then none else some (ts.1, rest)
      else some ts }

/-- ConnectionManager.send_personal_message (websocket.py lines
44-51): a client absent from the connection table is skipped; a send
failure (fails cid) is caught inside this function and turns into
disconnect(cid). Returns the new hub state and whether the message
reached the client socket. -/
def send_personal_message (fails : String → Bool) (cid : String)
    (st : HubState) : HubState × Bool :=
  if st.active_connections.contains cid then
    if fails cid then (hubDisconnect cid st, false) else (st, true)
  else
    (st, false)

/-- Current size of the subscriber set of a task (0 when absent). -/
def subsSize (st : HubState) (tid : String) : Nat :=
  ((assocLookup st.task_subscribers tid).getD []).length

/-- Outcome of one broadcast: the final hub state, the clients the
message actually reached, and whether the loop aborted with the
CPython RuntimeError raised when a set changes size mid-iteration. -/
structure BroadcastOutcome where
  state : HubState
  delivered : List String
  raised : Bool
  deriving DecidableEq, Repr

/-- The for-loop of broadcast_to_task_subscribers, iterating a CPython
set iterator over the subscriber set: the iterator records the size of
the set at creation and every advance, the exhausting one included,
raises RuntimeError when the current size differs. A send failure
calls disconnect, which shrinks the set being iterated, so the next
advance raises and delivery to the clients not yet reached is lost. -/
def broadcastLoop (fails : String → Bool) (tid : String) (n0 : Nat) :
    List String → HubState → List String → BroadcastOutcome
  | [], st, delivered =>
      { state := st, delivered := delivered, raised := subsSize st tid != n0 }
  | c :: cs, st, delivered =>
      if subsSize st tid != n0 then
        { state := st, delivered := delivered, raised := true }
      else
        let r := send_personal_message fails c st
        broadcastLoop fails tid n0 cs r.1 (if r.2 then delivered ++ [c] else delivered)

/-- ConnectionManager.broadcast_to_task_subscribers (websocket.py
lines 53-65). The try-except inside the loop and the
disconnected_clients cleanup after it are dead code, because
send_personal_message catches its own failures; the observable
behavior is the iteration above. -/
def broadcast_to_task_subscribers (fails : String → Bool) (tid : String)
    (st : HubState) : BroadcastOutcome :=
  match assocLookup st.task_subscribers tid with
  | none => { state := st, delivered := [], raised := false }
  | some subs => broadcastLoop fails tid subs.length subs st []

/-! Concrete inputs used by counterexamples and witnesses. -/

/-- A registry holding one freshly created task. -/
def c4Reg : Registry := create_task "t" [] 0 []

/-- Registry after executing one task whose mock-engine page fetch
raised an exception with message msg: the executor receives the
ErrorResult object the mock engine converted the exception into. -/
def c9Run (url msg : String) (cfg : List (String × PyVal)) (ct n0 n1 : Nat) :
    Registry :=
  (execute_crawl_task "t" url (.ok (mockCrawlError url msg)) ct n1
    (create_task "t" cfg n0 [])).1

/-- The record invariant claimed by the data-model section of the
spec: result present iff completed, error present iff failed, progress
exactly 1 iff completed. -/
def RecOK (rec : TaskRecord) : Prop :=
  (rec.result.isSome ↔ rec.status = .completed)
  ∧ (rec.error.isSome ↔ rec.status = .failed)
  ∧ (rec.progress = 1 ↔ rec.status = .completed)

/-- Every record of the registry satisfies the record invariant. -/
def RegOK (st : Registry) : Prop :=
  ∀ id rec, lookupTask st id = some rec → RecOK rec

/-- An engine result object with every optional attribute absent. -/
def emptyEngine : EngineResult := {}

/-- Operation sequence refuting the unrestricted invariant: create,
execute successfully, then execute the same id again with a failing
engine call. -/
def c5Ops : List Op :=
  [.create "t" [] 0,
   .execute "t" "u" (.ok emptyEngine) 0 1,
   .execute "t" "u" (.exn .duringCrawl "boom" "ValueError" "tb") 0 2]

/-- A registry holding one task that was created and then cancelled
while still pending. -/
def c1Cancelled : Registry := (cancel_task "t" 1 (create_task "t" [] 0 [])).2

/-- A registry holding one task whose first execution failed. -/
def c2First : Registry :=
  (execute_crawl_task "t" "u" (.exn .duringCrawl "boom" "ValueError" "tb") 0 1
    (create_task "t" [] 0 [])).1

/-- A hub with two live connections both subscribed to task t. -/
def c3Hub : HubState :=
  { active_connections := ["c1", "c2"],
    task_subscribers := [("t", ["c1", "c2"])] }

/-- A socket behavior where only the send to c1 raises. -/
def c3Fails : String → Bool := fun c => c == "c1"

/-- An engine output whose images collection holds a dict entry with
neither url nor alt nor title keys. -/
def c6Engine : EngineResult :=
  { media := some [("images", [PyObj.dict [("width", PyVal.vint 10)]])] }

/-- An engine output with one scalar entry in the internal links. -/
def c6LinkEngine : EngineResult :=
  { links := some [("internal", [PyObj.scalar (PyVal.vstr "a")])] }

/-! Registry lemmas shared by the proofs below. -/

theorem lookupTask_setTask_self (st : Registry) (id : String) (rec : TaskRecord) :
    lookupTask (setTask st id rec) id = some rec := by
  induction st with
  | nil => simp [setTask, lookupTask, assocLookup]
  | cons hd tl ih =>
      obtain ⟨k, v⟩ := hd
      by_cases h : k = id
      · simp [setTask, h, lookupTask, assocLookup]
      · simpa [setTask, h, lookupTask, assocLookup] using ih

theorem lookupTask_setTask_ne (st : Registry) (id j : String) (rec : TaskRecord)
    (h : j ≠ id) :
    lookupTask (setTask st id rec) j = lookupTask st j := by
  induction st with
  | nil => simp [setTask, lookupTask, assocLookup, h, Ne.symm h]
  | cons hd tl ih =>
      obtain ⟨k, v⟩ := hd
      by_cases hk : k = id
      · subst hk
        simp [setTask, lookupTask, assocLookup, Ne.symm h, h]
      · simp [setTask, hk, lookupTask, assocLookup]
        split
        · rfl
        · exact ih

/-- cancel_task on an existing pending or running task. -/
theorem cancel_task_eq_of_active (st : Registry) (id : String) (now : Nat)
    (rec : TaskRecord) (h : lookupTask st id = some rec)
    (hs : rec.status = .pending ∨ rec.status = .running) :
    cancel_task id now st =
      (true, setTask st id { rec with status := .cancelled, updated_at := now }) := by
  unfold cancel_task
  rw [h]
  simp [hs]

/-- cancel_task on an existing task in a terminal state. -/
theorem cancel_task_eq_of_inactive (st : Registry) (id : String) (now : Nat)
    (rec : TaskRecord) (h : lookupTask st id = some rec)
    (hs : ¬(rec.status = .pending ∨ rec.status = .running)) :
    cancel_task id now st = (false, st) := by
  unfold cancel_task
  rw [h]
  simp [hs]

/-- cancel_task on an unknown task id. -/
theorem cancel_task_eq_of_missing (st : Registry) (id : String) (now : Nat)
    (h : lookupTask st id = none) :
    cancel_task id now st = (false, st) := by
  unfold cancel_task
  rw [h]

/-- C4: the claim asserts that a successful cancel stamps the
completion timestamp. On a pending task, cancel_task returns true and
sets the status to cancelled, yet completed_at stays None: the code
only touches status and updated_at. -/
theorem c4_counterexample :
    (cancel_task "t" 1 c4Reg).1 = true
  ∧ (lookupTask (cancel_task "t" 1 c4Reg).2 "t").map TaskRecord.status
      = some TaskStatus.cancelled
  ∧ (lookupTask (cancel_task "t" 1 c4Reg).2 "t").map TaskRecord.completed_at
      = some none := by
  decide

/-- C4 (amended): cancel_task returns true exactly when the task
exists with status pending or running; in that case it rewrites the
record with status cancelled and a fresh updated_at (completed_at is
not stamped); when it returns false the registry is unchanged. -/
theorem c4_amended (st : Registry) (id : String) (now : Nat) :
    ((cancel_task id now st).1 = true ↔
      ∃ rec, lookupTask st id = some rec ∧
        (rec.status = .pending ∨ rec.status = .running))
  ∧ (∀ rec, lookupTask st id = some rec →
      (rec.status = .pending ∨ rec.status = .running) →
      (cancel_task id now st).2 =
        setTask st id { rec with status := .cancelled, updated_at := now })
  ∧ ((cancel_task id now st).1 = false → (cancel_task id now st).2 = st) := by
  cases hl : lookupTask st id with
  | none =>
      rw [cancel_task_eq_of_missing st id now hl]
      refine ⟨?_, ?_, ?_⟩
      · constructor
        · intro h
          simp at h
        · rintro ⟨rec, hrec, _⟩
          cases hrec
      · intro rec hrec
        cases hrec
      · intro _
        rfl
  | some rec =>
      by_cases hs : rec.status = .pending ∨ rec.status = .running
      · rw [cancel_task_eq_of_active st id now rec hl hs]
        refine ⟨?_, ?_, ?_⟩
        · exact ⟨fun _ => ⟨rec, rfl, hs⟩, fun _ => rfl⟩
        · intro rec2 hrec2 _
          cases hrec2
          rfl
        · intro h
          simp at h
      · rw [cancel_task_eq_of_inactive st id now rec hl hs]
        refine ⟨?_, ?_, ?_⟩
        · constructor
          · intro h
            simp at h
          · rintro ⟨rec2, hrec2, hs2⟩
            cases hrec2
            exact absurd hs2 hs
        · intro rec2 hrec2 hs2
          cases hrec2
          exact absurd hs2 hs
        · intro _
          rfl

/-- C4 witness: the amended theorem applied to a concrete registry
holding one pending task. -/
theorem c4_amended_witness :
    (cancel_task "t" 5 c4Reg).2 =
      setTask c4Reg "t"
        { task_id := "t", status := .cancelled, progress := 0, result := none,
          error := none, error_details := none, created_at := 0, updated_at := 5,
          completed_at := none, config := some [] } :=
  (c4_amended c4Reg "t" 5).2.1
    { task_id := "t", status := .pending, progress := 0, result := none,
      error := none, error_details := none, created_at := 0, updated_at := 0,
      completed_at := none, config := some [] }
    (by decide) (Or.inl rfl)

/-- C8: on a pending or running task, cancel_task rewrites only the
status and updated_at fields of that one record: progress, result,
error, error_details, created_at, completed_at and config are kept,
and every other task of the registry is untouched. -/
theorem c8_cancel_frame (st : Registry) (id : String) (now : Nat)
    (rec : TaskRecord) (h : lookupTask st id = some rec)
    (hs : rec.status = .pending ∨ rec.status = .running) :
    lookupTask (cancel_task id now st).2 id =
      some { rec with status := .cancelled, updated_at := now }
  ∧ ∀ j, j ≠ id → lookupTask (cancel_task id now st).2 j = lookupTask st j := by
  have hc : (cancel_task id now st).2 =
      setTask st id { rec with status := .cancelled, updated_at := now } := by
    rw [cancel_task_eq_of_active st id now rec h hs]
  refine ⟨?_, ?_⟩
  · rw [hc, lookupTask_setTask_self]
  · intro j hj
    rw [hc, lookupTask_setTask_ne st id j _ hj]

/-- C8 witness: the frame theorem applied to a registry holding a
pending task "t" and an unrelated task "u". -/
theorem c8_cancel_frame_witness :
    lookupTask (cancel_task "t" 7 (create_task "u" [] 3 c4Reg)).2 "t" =
      some { task_id := "t", status := .cancelled, progress := 0, result := none,
             error := none, error_details := none, created_at := 0, updated_at := 7,
             completed_at := none, config := some [] }
  ∧ lookupTask (cancel_task "t" 7 (create_task "u" [] 3 c4Reg)).2 "u" =
      lookupTask (create_task "u" [] 3 c4Reg) "u" := by
  have h := c8_cancel_frame (create_task "u" [] 3 c4Reg) "t" 7
    { task_id := "t", status := .pending, progress := 0, result := none,
      error := none, error_details := none, created_at := 0, updated_at := 0,
      completed_at := none, config := some [] }
    (by decide) (Or.inl rfl)
  exact ⟨h.1, h.2 "u" (by decide)⟩

/-! Equation lemmas for the executor. -/

/-- execute_crawl_task on an unknown id changes nothing and emits
nothing. -/
theorem execute_missing_eq (st : Registry) (id url : String)
    (outcome : CrawlOutcome) (ct now : Nat) (h : lookupTask st id = none) :
    execute_crawl_task id url outcome ct now st = (st, []) := by
  unfold execute_crawl_task
  rw [h]

/-- execute_crawl_task on an existing record with a successful engine
call: the record is overwritten with the completed state regardless of
its current status, and the completed event is emitted. -/
theorem execute_ok_eq (st : Registry) (id url : String) (r : EngineResult)
    (ct now : Nat) (rec : TaskRecord) (h : lookupTask st id = some rec) :
    execute_crawl_task id url (.ok r) ct now st =
      (setTask st id
        { rec with
          status := .completed
          progress := 1
          result := some (convert_result r url ct)
          updated_at := now
          completed_at := some now },
       [.taskUpdate id .running (1 / 10), .taskUpdate id .running (3 / 10),
        .taskUpdate id .running (4 / 5), .taskCompleted id]) := by
  unfold execute_crawl_task
  rw [h]

/-- execute_crawl_task on an existing record with a raised exception:
the record is overwritten with the failed state regardless of its
current status, and the error event is emitted. -/
theorem execute_exn_eq (st : Registry) (id url : String) (p : FailPoint)
    (msg ty tb : String) (ct now : Nat) (rec : TaskRecord)
    (h : lookupTask st id = some rec) :
    execute_crawl_task id url (.exn p msg ty tb) ct now st =
      (setTask st id
        { rec with
          status := .failed
          progress := failProgress p
          error := some msg
          error_details := some { error_type := ty, traceback := tb }
          updated_at := now
          completed_at := some now },
       failUpdates id p ++ [.taskError id msg]) := by
  unfold execute_crawl_task
  rw [h]

/-- create_task leaves a fresh pending record under the id. -/
theorem lookupTask_create_self (st : Registry) (id : String)
    (cfg : List (String × PyVal)) (now : Nat) :
    lookupTask (create_task id cfg now st) id = some
      { task_id := id, status := .pending, progress := 0, result := none,
        error := none, error_details := none, created_at := now,
        updated_at := now, completed_at := none, config := some cfg } := by
  unfold create_task
  exact lookupTask_setTask_self st id _

/-- C10: for a completed task carrying a result, get_task_result
accepts any format string; a format other than markdown, html or text
returns the full result model instead of a validation error. -/
theorem c10_unknown_format_full_result (rec : TaskRecord) (r : CrawlResultModel)
    (fmt : String) (hst : rec.status = .completed) (hres : rec.result = some r)
    (h1 : fmt ≠ "markdown") (h2 : fmt ≠ "html") (h3 : fmt ≠ "text") :
    get_task_result (some rec) fmt = .fullResult r := by
  simp [get_task_result, hst, hres, h1, h2, h3]

/-- C10 witness: the unrecognized format xml on a concrete completed
task returns the full result. -/
theorem c10_unknown_format_full_result_witness :
    get_task_result
      (some { task_id := "t", status := .completed, progress := 1,
              result := some { url := "u", title := none, markdown := none,
                               html := none, text := none,
                               extracted_content := none, screenshot := none,
                               links := [], images := [], metadata := [],
                               crawl_time := some 0, content_size := some 0 },
              error := none, error_details := none, created_at := 0,
              updated_at := 0, completed_at := some 0, config := none })
      "xml" =
      .fullResult { url := "u", title := none, markdown := none, html := none,
                    text := none, extracted_content := none, screenshot := none,
                    links := [], images := [], metadata := [],
                    crawl_time := some 0, content_size := some 0 } :=
  c10_unknown_format_full_result _ _ "xml" rfl rfl
    (by decide) (by decide) (by decide)

/-- C9: when the mock engine's page fetch raises an exception, the
exception is returned as an ErrorResult object rather than propagated,
so the executor finalizes the task as completed with progress 1, no
error recorded, and a result whose title, text and markdown describe
the error. -/
theorem c9_mock_fetch_error_completes (url msg : String)
    (cfg : List (String × PyVal)) (ct n0 n1 : Nat) :
    ((lookupTask (c9Run url msg cfg ct n0 n1) "t").map TaskRecord.status
        = some .completed)
  ∧ ((lookupTask (c9Run url msg cfg ct n0 n1) "t").map TaskRecord.progress
        = some 1)
  ∧ ((lookupTask (c9Run url msg cfg ct n0 n1) "t").map TaskRecord.error
        = some none)
  ∧ ((lookupTask (c9Run url msg cfg ct n0 n1) "t").map
        (fun t => t.result.map CrawlResultModel.title)
        = some (some (some "Error")))
  ∧ ((lookupTask (c9Run url msg cfg ct n0 n1) "t").map
        (fun t => t.result.map CrawlResultModel.text)
        = some (some (some ("Error: " ++ msg))))
  ∧ ((lookupTask (c9Run url msg cfg ct n0 n1) "t").map
        (fun t => t.result.map CrawlResultModel.markdown)
        = some (some (some ("# Error\n\nFailed to crawl " ++ url ++ ": " ++ msg)))) := by
  have hex := execute_ok_eq (create_task "t" cfg n0 []) "t" url
    (mockCrawlError url msg) ct n1 _ (lookupTask_create_self [] "t" cfg n0)
  have hrun : lookupTask (c9Run url msg cfg ct n0 n1) "t" = some
      { task_id := "t", status := .completed, progress := 1,
        result := some (convert_result (mockCrawlError url msg) url ct),
        error := none, error_details := none, created_at := n0,
        updated_at := n1, completed_at := some n1, config := some cfg } := by
    unfold c9Run
    rw [hex]
    exact lookupTask_setTask_self _ "t" _
  simp [hrun, convert_result, mockCrawlError]

/-- C7: the timeout path of quick_crawl always answers with the HTTP
408 timeout error, which is distinct from the failure-info response of
a failed crawl, and a later lookup of the task shows status cancelled,
unless the executor had already committed a terminal state before the
cancellation landed, in which case that terminal state stays. -/
theorem c7_quick_crawl_timeout (id url : String) (cfg : List (String × PyVal))
    (ip : InterruptPoint) (ct now tsecs : Nat) (st0 : Registry) :
    (quick_crawl_timeout id url cfg ip ct now tsecs st0).2
        = QuickResponse.timeout408 tsecs
  ∧ (∀ a b c, QuickResponse.timeout408 tsecs ≠ QuickResponse.failureInfo a b c)
  ∧ (lookupTask (quick_crawl_timeout id url cfg ip ct now tsecs st0).1 id).map
      TaskRecord.status = some (expectedAfterTimeout ip) := by
  refine ⟨rfl, fun a b c h => QuickResponse.noConfusion h, ?_⟩
  have hcr := lookupTask_create_self st0 id cfg now
  show (lookupTask (cancel_task id now (interruptedExecute id url ip ct now
      (create_task id cfg now st0))).2 id).map TaskRecord.status
      = some (expectedAfterTimeout ip)
  cases ip with
  | beforeStart =>
      have h2 : interruptedExecute id url .beforeStart ct now
          (create_task id cfg now st0) = create_task id cfg now st0 := by
        simp only [interruptedExecute, hcr]
      rw [h2, cancel_task_eq_of_active _ id now _ hcr (Or.inl rfl)]
      simp [lookupTask_setTask_self, expectedAfterTimeout]
  | afterProgress01 =>
      have h2 : lookupTask (interruptedExecute id url .afterProgress01 ct now
          (create_task id cfg now st0)) id = some
            { task_id := id, status := .running, progress := 1 / 10,
              result := none, error := none, error_details := none,
              created_at := now, updated_at := now, completed_at := none,
              config := some cfg } := by
        simp only [interruptedExecute, hcr]
        exact lookupTask_setTask_self _ id _
      rw [cancel_task_eq_of_active _ id now _ h2 (Or.inr rfl)]
      simp [lookupTask_setTask_self, expectedAfterTimeout]
  | afterProgress03 =>
      have h2 : lookupTask (interruptedExecute id url .afterProgress03 ct now
          (create_task id cfg now st0)) id = some
            { task_id := id, status := .running, progress := 3 / 10,
              result := none, error := none, error_details := none,
              created_at := now, updated_at := now, completed_at := none,
              config := some cfg } := by
        simp only [interruptedExecute, hcr]
        exact lookupTask_setTask_self _ id _
      rw [cancel_task_eq_of_active _ id now _ h2 (Or.inr rfl)]
      simp [lookupTask_setTask_self, expectedAfterTimeout]
  | afterProgress08 =>
      have h2 : lookupTask (interruptedExecute id url .afterProgress08 ct now
          (create_task id cfg now st0)) id = some
            { task_id := id, status := .running, progress := 4 / 5,
              result := none, error := none, error_details := none,
              created_at := now, updated_at := now, completed_at := none,
              config := some cfg } := by
        simp only [interruptedExecute, hcr]
        exact lookupTask_setTask_self _ id _
      rw [cancel_task_eq_of_active _ id now _ h2 (Or.inr rfl)]
      simp [lookupTask_setTask_self, expectedAfterTimeout]
  | afterCompleted r =>
      have h2 : lookupTask (interruptedExecute id url (.afterCompleted r) ct now
          (create_task id cfg now st0)) id = some
            { task_id := id, status := .completed, progress := 1,
              result := some (convert_result r url ct), error := none,
              error_details := none, created_at := now, updated_at := now,
              completed_at := some now, config := some cfg } := by
        simp only [interruptedExecute, hcr,
          execute_ok_eq _ id url r ct now _ hcr]
        exact lookupTask_setTask_self _ id _
      rw [cancel_task_eq_of_inactive _ id now _ h2 (by simp)]
      rw [h2]
      simp [expectedAfterTimeout]
  | afterFailed p msg ty tb =>
      have h2 : lookupTask (interruptedExecute id url (.afterFailed p msg ty tb)
          ct now (create_task id cfg now st0)) id = some
            { task_id := id, status := .failed, progress := failProgress p,
              result := none, error := some msg,
              error_details := some { error_type := ty, traceback := tb },
              created_at := now, updated_at := now, completed_at := some now,
              config := some cfg } := by
        simp only [interruptedExecute, hcr,
          execute_exn_eq _ id url p msg ty tb ct now _ hcr]
        exact lookupTask_setTask_self _ id _
      rw [cancel_task_eq_of_inactive _ id now _ h2 (by simp)]
      rw [h2]
      simp [expectedAfterTimeout]

/-- C7 witness: the timeout theorem applied to a concrete run
interrupted while the crawl was in flight: the response is the 408
timeout and the task ends up cancelled. -/
theorem c7_quick_crawl_timeout_witness :
    (quick_crawl_timeout "t" "u" [] .afterProgress03 0 4 5 []).2
        = QuickResponse.timeout408 5
  ∧ (lookupTask (quick_crawl_timeout "t" "u" [] .afterProgress03 0 4 5 []).1
      "t").map TaskRecord.status = some TaskStatus.cancelled :=
  ⟨(c7_quick_crawl_timeout "t" "u" [] .afterProgress03 0 4 5 []).1,
   (c7_quick_crawl_timeout "t" "u" [] .afterProgress03 0 4 5 []).2.2⟩

/-- C9 witness: the mock-error theorem applied to a concrete url and
message. -/
theorem c9_mock_fetch_error_completes_witness :
    (lookupTask (c9Run "u" "boom" [] 0 0 1) "t").map TaskRecord.status
      = some TaskStatus.completed :=
  (c9_mock_fetch_error_completes "u" "boom" [] 0 0 1).1

/-- A terminal status is neither pending nor running. -/
theorem isTerminal_not_active (s : TaskStatus) (h : s.isTerminal = true) :
    ¬(s = .pending ∨ s = .running) := by
  cases s <;> simp [TaskStatus.isTerminal] at h ⊢

/-- C1 counterexample: a task created at tick 0 and cancelled at tick 1
is in the terminal state cancelled, yet a subsequent executor run
overwrites it to completed with progress 1 and a result, and emits the
completed event. -/
theorem c1_counterexample :
    ((lookupTask c1Cancelled "t").map TaskRecord.status
        = some TaskStatus.cancelled)
  ∧ ((lookupTask (execute_crawl_task "t" "u" (.ok emptyEngine) 0 2 c1Cancelled).1
        "t").map TaskRecord.status = some TaskStatus.completed)
  ∧ ((lookupTask (execute_crawl_task "t" "u" (.ok emptyEngine) 0 2 c1Cancelled).1
        "t").map (fun t => t.result.isSome) = some true)
  ∧ WsEvent.taskCompleted "t"
      ∈ (execute_crawl_task "t" "u" (.ok emptyEngine) 0 2 c1Cancelled).2 := by
  decide

/-- C1 (amended): cancel_task never moves a task out of a terminal
state (on a terminal task it returns false and leaves the registry
unchanged), but execute_crawl_task performs no cancellation check: a
run on a task already in a terminal state, cancelled included,
overwrites status, progress and result and emits the completed event. -/
theorem c1_amended (st : Registry) (id url : String) (now ct : Nat)
    (rec : TaskRecord) (r : EngineResult)
    (h : lookupTask st id = some rec) (hterm : rec.status.isTerminal = true) :
    cancel_task id now st = (false, st)
  ∧ (lookupTask (execute_crawl_task id url (.ok r) ct now st).1 id).map
      TaskRecord.status = some TaskStatus.completed
  ∧ WsEvent.taskCompleted id ∈ (execute_crawl_task id url (.ok r) ct now st).2 := by
  refine ⟨cancel_task_eq_of_inactive st id now rec h (isTerminal_not_active _ hterm),
    ?_, ?_⟩
  · rw [execute_ok_eq st id url r ct now rec h]
    simp [lookupTask_setTask_self]
  · rw [execute_ok_eq st id url r ct now rec h]
    simp

/-- C1 witness: the amended theorem applied to the concrete registry
holding one cancelled task. -/
theorem c1_amended_witness :
    cancel_task "t" 3 c1Cancelled = (false, c1Cancelled)
  ∧ (lookupTask (execute_crawl_task "t" "u" (.ok emptyEngine) 0 3 c1Cancelled).1
      "t").map TaskRecord.status = some TaskStatus.completed
  ∧ WsEvent.taskCompleted "t"
      ∈ (execute_crawl_task "t" "u" (.ok emptyEngine) 0 3 c1Cancelled).2 :=
  c1_amended c1Cancelled "t" "u" 3 0
    { task_id := "t", status := .cancelled, progress := 0, result := none,
      error := none, error_details := none, created_at := 0, updated_at := 1,
      completed_at := none, config := some [] }
    emptyEngine (by decide) (by decide)

/-- C2 counterexample: after a first execution left the task failed, a
second invocation of execute_crawl_task with the same task id mutates
the record again, moving it to completed with a result and emitting
events, so the executor does not guard against double execution. -/
theorem c2_counterexample :
    ((lookupTask c2First "t").map TaskRecord.status = some TaskStatus.failed)
  ∧ ((lookupTask (execute_crawl_task "t" "u" (.ok emptyEngine) 0 2 c2First).1
        "t").map TaskRecord.status = some TaskStatus.completed)
  ∧ (execute_crawl_task "t" "u" (.ok emptyEngine) 0 2 c2First).2 ≠ [] := by
  decide

/-- C2 (amended): execute_crawl_task guards only against unknown task
ids, for which it performs no mutation and emits no events; every
invocation on an existing id, a repeated one included, re-runs the
full body and overwrites the record according to the outcome. -/
theorem c2_amended (st : Registry) (id url : String) (ct now : Nat) :
    (lookupTask st id = none →
      ∀ outcome, execute_crawl_task id url outcome ct now st = (st, []))
  ∧ (∀ rec r, lookupTask st id = some rec →
      (lookupTask (execute_crawl_task id url (.ok r) ct now st).1 id).map
        TaskRecord.status = some TaskStatus.completed)
  ∧ (∀ rec p msg ty tb, lookupTask st id = some rec →
      (lookupTask (execute_crawl_task id url (.exn p msg ty tb) ct now st).1
        id).map TaskRecord.status = some TaskStatus.failed) := by
  refine ⟨?_, ?_, ?_⟩
  · intro h outcome
    exact execute_missing_eq st id url outcome ct now h
  · intro rec r h
    rw [execute_ok_eq st id url r ct now rec h]
    simp [lookupTask_setTask_self]
  · intro rec p msg ty tb h
    rw [execute_exn_eq st id url p msg ty tb ct now rec h]
    simp [lookupTask_setTask_self]

/-- C2 witness: the amended theorem applied to the registry whose task
already failed once, executed a second time. -/
theorem c2_amended_witness :
    (lookupTask (execute_crawl_task "t" "u" (.ok emptyEngine) 0 2 c2First).1
      "t").map TaskRecord.status = some TaskStatus.completed :=
  (c2_amended c2First "t" "u" 0 2).2.1
    { task_id := "t", status := .failed, progress := 3 / 10, result := none,
      error := some "boom",
      error_details := some { error_type := "ValueError", traceback := "tb" },
      created_at := 0, updated_at := 1, completed_at := some 1,
      config := some [] }
    emptyEngine rfl

/-! Counting lemmas for execute operations. -/

theorem countExec_le_cons (op : Op) (ops : List Op) (id : String) :
    countExec ops id ≤ countExec (op :: ops) id := by
  simp only [countExec, List.countP_cons]
  split <;> omega

theorem countExec_cons_create (id0 : String) (cfg : List (String × PyVal))
    (now : Nat) (ops : List Op) (id : String) :
    countExec (Op.create id0 cfg now :: ops) id = countExec ops id := by
  simp [countExec, List.countP_cons]

theorem countExec_cons_cancel (id0 : String) (now : Nat) (ops : List Op)
    (id : String) :
    countExec (Op.cancel id0 now :: ops) id = countExec ops id := by
  simp [countExec, List.countP_cons]

theorem countExec_cons_execute (j url : String) (o : CrawlOutcome)
    (ct n : Nat) (ops : List Op) (id : String) :
    countExec (Op.execute j url o ct n :: ops) id
      = countExec ops id + (if j = id then 1 else 0) := by
  simp [countExec, List.countP_cons]

/-- The progress retained by a failed run is never 1. -/
theorem failProgress_ne_one (p : FailPoint) : failProgress p ≠ 1 := by
  cases p <;> norm_num [failProgress]

/-- create_task does not affect other ids. -/
theorem lookupTask_create_ne (st : Registry) (id j : String)
    (cfg : List (String × PyVal)) (now : Nat) (h : j ≠ id) :
    lookupTask (create_task id cfg now st) j = lookupTask st j := by
  unfold create_task
  exact lookupTask_setTask_ne st id j _ h

/-- The record invariant is preserved by every operation sequence in
which each task id is executed at most once, starting from a registry
whose completed or failed records have no execute operation left. -/
theorem regOK_run (ops : List Op) : ∀ (st : Registry),
    RegOK st →
    (∀ id rec, lookupTask st id = some rec →
        (rec.status = .completed ∨ rec.status = .failed) →
        countExec ops id = 0) →
    (∀ id, countExec ops id ≤ 1) →
    RegOK (run st ops) := by
  induction ops with
  | nil =>
      intro st h1 _ _
      exact h1
  | cons op rest ih =>
      intro st h1 h2 h3
      show RegOK (run (step st op) rest)
      cases op with
      | create id0 cfg now =>
          apply ih
          · intro j rec hl
            by_cases hj : j = id0
            · subst hj
              rw [show step st (Op.create j cfg now) = create_task j cfg now st from rfl,
                lookupTask_create_self st j cfg now] at hl
              cases hl
              exact ⟨iff_of_false (by simp) (by simp),
                iff_of_false (by simp) (by simp),
                iff_of_false (by norm_num) (by simp)⟩
            · rw [show step st (Op.create id0 cfg now) = create_task id0 cfg now st from rfl,
                lookupTask_create_ne st id0 j cfg now hj] at hl
              exact h1 j rec hl
          · intro j rec hl hterm
            by_cases hj : j = id0
            · subst hj
              rw [show step st (Op.create j cfg now) = create_task j cfg now st from rfl,
                lookupTask_create_self st j cfg now] at hl
              cases hl
              simp at hterm
            · rw [show step st (Op.create id0 cfg now) = create_task id0 cfg now st from rfl,
                lookupTask_create_ne st id0 j cfg now hj] at hl
              have h0 := h2 j rec hl hterm
              rw [countExec_cons_create] at h0
              exact h0
          · intro j
            have ha := countExec_le_cons (Op.create id0 cfg now) rest j
            have hb := h3 j
            omega
      | cancel id0 now =>
          cases hl0 : lookupTask st id0 with
          | none =>
              have hstep : step st (Op.cancel id0 now) = st := by
                simp [step, cancel_task_eq_of_missing st id0 now hl0]
              rw [hstep]
              apply ih st h1
              · intro j rec hl hterm
                have h0 := h2 j rec hl hterm
                rw [countExec_cons_cancel] at h0
                exact h0
              · intro j
                have ha := countExec_le_cons (Op.cancel id0 now) rest j
                have hb := h3 j
                omega
          | some rec0 =>
              by_cases hs : rec0.status = .pending ∨ rec0.status = .running
              · have hstep : step st (Op.cancel id0 now) =
                    setTask st id0 { rec0 with status := .cancelled, updated_at := now } := by
                  simp [step, cancel_task_eq_of_active st id0 now rec0 hl0 hs]
                have hnc : rec0.status ≠ .completed := by
                  rcases hs with h | h <;> simp [h]
                have hnf : rec0.status ≠ .failed := by
                  rcases hs with h | h <;> simp [h]
                have hrok := h1 id0 rec0 hl0
                rw [hstep]
                apply ih
                · intro j rec hl
                  by_cases hj : j = id0
                  · subst hj
                    rw [lookupTask_setTask_self] at hl
                    cases hl
                    refine ⟨iff_of_false ?_ (by simp), iff_of_false ?_ (by simp),
                      iff_of_false ?_ (by simp)⟩
                    · show ¬rec0.result.isSome = true
                      intro hx
                      exact hnc (hrok.1.mp hx)
                    · show ¬rec0.error.isSome = true
                      intro hx
                      exact hnf (hrok.2.1.mp hx)
                    · show ¬rec0.progress = 1
                      intro hx
                      exact hnc (hrok.2.2.mp hx)
                  · rw [lookupTask_setTask_ne st id0 j _ hj] at hl
                    exact h1 j rec hl
                · intro j rec hl hterm
                  by_cases hj : j = id0
                  · subst hj
                    rw [lookupTask_setTask_self] at hl
                    cases hl
                    simp at hterm
                  · rw [lookupTask_setTask_ne st id0 j _ hj] at hl
                    have h0 := h2 j rec hl hterm
                    rw [countExec_cons_cancel] at h0
                    exact h0
                · intro j
                  have ha := countExec_le_cons (Op.cancel id0 now) rest j
                  have hb := h3 j
                  omega
              · have hstep : step st (Op.cancel id0 now) = st := by
                  simp [step, cancel_task_eq_of_inactive st id0 now rec0 hl0 hs]
                rw [hstep]
                apply ih st h1
                · intro j rec hl hterm
                  have h0 := h2 j rec hl hterm
                  rw [countExec_cons_cancel] at h0
                  exact h0
                · intro j
                  have ha := countExec_le_cons (Op.cancel id0 now) rest j
                  have hb := h3 j
                  omega
      | execute id0 url o ct n =>
          cases hl0 : lookupTask st id0 with
          | none =>
              have hstep : step st (Op.execute id0 url o ct n) = st := by
                simp [step, execute_missing_eq st id0 url o ct n hl0]
              rw [hstep]
              apply ih st h1
              · intro j rec hl hterm
                have h0 := h2 j rec hl hterm
                have ha := countExec_le_cons (Op.execute id0 url o ct n) rest j
                omega
              · intro j
                have ha := countExec_le_cons (Op.execute id0 url o ct n) rest j
                have hb := h3 j
                omega
          | some rec0 =>
              have hne : ¬(rec0.status = .completed ∨ rec0.status = .failed) := by
                intro hterm
                have h0 := h2 id0 rec0 hl0 hterm
                rw [countExec_cons_execute] at h0
                simp at h0
              have hnc : rec0.status ≠ .completed := fun hc => hne (Or.inl hc)
              have hnf : rec0.status ≠ .failed := fun hf => hne (Or.inr hf)
              have hrok := h1 id0 rec0 hl0
              have hresnone : rec0.result = none := by
                cases hres : rec0.result with
                | none => rfl
                | some r =>
                    exact absurd (hrok.1.mp (by simp [hres])) hnc
              have herrnone : rec0.error = none := by
                cases herr : rec0.error with
                | none => rfl
                | some e =>
                    exact absurd (hrok.2.1.mp (by simp [herr])) hnf
              have hrest0 : countExec rest id0 = 0 := by
                have hb := h3 id0
                rw [countExec_cons_execute] at hb
                simp at hb
                omega
              cases o with
              | ok r =>
                  have hstep : step st (Op.execute id0 url (.ok r) ct n) =
                      setTask st id0
                        { rec0 with
                          status := .completed
                          progress := 1
                          result := some (convert_result r url ct)
                          updated_at := n
                          completed_at := some n } := by
                    simp [step, execute_ok_eq st id0 url r ct n rec0 hl0]
                  rw [hstep]
                  apply ih
                  · intro j rec hl
                    by_cases hj : j = id0
                    · subst hj
                      rw [lookupTask_setTask_self] at hl
                      cases hl
                      refine ⟨iff_of_true (by simp) rfl,
                        iff_of_false ?_ (by simp), iff_of_true rfl rfl⟩
                      show ¬rec0.error.isSome = true
                      simp [herrnone]
                    · rw [lookupTask_setTask_ne st id0 j _ hj] at hl
                      exact h1 j rec hl
                  · intro j rec hl hterm
                    by_cases hj : j = id0
                    · subst hj
                      exact hrest0
                    · rw [lookupTask_setTask_ne st id0 j _ hj] at hl
                      have h0 := h2 j rec hl hterm
                      rw [countExec_cons_execute] at h0
                      simp [Ne.symm hj] at h0
                      exact h0
                  · intro j
                    have ha := countExec_le_cons (Op.execute id0 url (.ok r) ct n) rest j
                    have hb := h3 j
                    omega
              | exn p msg ty tb =>
                  have hstep : step st (Op.execute id0 url (.exn p msg ty tb) ct n) =
                      setTask st id0
                        { rec0 with
                          status := .failed
                          progress := failProgress p
                          error := some msg
                          error_details := some { error_type := ty, traceback := tb }
                          updated_at := n
                          completed_at := some n } := by
                    simp [step, execute_exn_eq st id0 url p msg ty tb ct n rec0 hl0]
                  rw [hstep]
                  apply ih
                  · intro j rec hl
                    by_cases hj : j = id0
                    · subst hj
                      rw [lookupTask_setTask_self] at hl
                      cases hl
                      refine ⟨iff_of_false ?_ (by simp), iff_of_true (by simp) rfl,
                        iff_of_false (failProgress_ne_one p) (by simp)⟩
                      show ¬rec0.result.isSome = true
                      simp [hresnone]
                    · rw [lookupTask_setTask_ne st id0 j _ hj] at hl
                      exact h1 j rec hl
                  · intro j rec hl hterm
                    by_cases hj : j = id0
                    · subst hj
                      exact hrest0
                    · rw [lookupTask_setTask_ne st id0 j _ hj] at hl
                      have h0 := h2 j rec hl hterm
                      rw [countExec_cons_execute] at h0
                      simp [Ne.symm hj] at h0
                      exact h0
                  · intro j
                    have ha := countExec_le_cons
                      (Op.execute id0 url (.exn p msg ty tb) ct n) rest j
                    have hb := h3 j
                    omega

/-- C5 counterexample: after the sequence create, execute (success),
execute (failure) on the same task id, the task is failed while its
stale result from the first run is still present, refuting the
unrestricted claim that result is present iff status is completed. -/
theorem c5_counterexample :
    ((lookupTask (run [] c5Ops) "t").map TaskRecord.status
        = some TaskStatus.failed)
  ∧ ((lookupTask (run [] c5Ops) "t").map (fun t => t.result.isSome)
        = some true) := by
  decide

/-- C5 (amended): provided execute_crawl_task runs at most once per
task id, every registry state reachable from the empty registry by
create, execute and cancel operations satisfies the record invariant:
result present iff completed, error present iff failed, and progress
equal to 1 iff completed. -/
theorem c5_amended (ops : List Op) (h : ∀ id, countExec ops id ≤ 1) :
    RegOK (run [] ops) := by
  apply regOK_run ops []
  · intro id rec hl
    cases hl
  · intro id rec hl
    cases hl
  · exact h

/-- C5 witness: the amended invariant evaluated on the concrete
sequence that creates a task and cancels it. -/
theorem c5_amended_witness :
    ∃ rec, lookupTask (run [] [Op.create "t" [] 0, Op.cancel "t" 1]) "t"
        = some rec ∧ RecOK rec := by
  have h := c5_amended [Op.create "t" [] 0, Op.cancel "t" 1]
    (fun _ => Nat.zero_le 1)
  exact ⟨_, rfl, h "t" _ rfl⟩

/-- C3: evaluation of the broadcast at the failing input. With c1 and
c2 both live and subscribed to task t and the send to c1 raising, the
broadcast disconnects c1 (removing it from the connection table and
the subscriber set, as the claim demands), but the removal shrinks the
set being iterated, so the loop aborts with the set-changed-size
RuntimeError: nothing is delivered, and in particular the remaining
live subscriber c2 never receives the event, contradicting the claimed
per-connection isolation. -/
theorem c3_failing_eval :
    (broadcast_to_task_subscribers c3Fails "t" c3Hub).delivered = []
  ∧ (broadcast_to_task_subscribers c3Fails "t" c3Hub).raised = true
  ∧ (broadcast_to_task_subscribers c3Fails "t" c3Hub).state.active_connections
      = ["c2"]
  ∧ assocLookup
      (broadcast_to_task_subscribers c3Fails "t" c3Hub).state.task_subscribers
      "t" = some ["c2"] := by
  decide

/-- C6 counterexample: a dict image entry keeps its own keys instead
of being normalized to the fixed url, alt, title shape: the produced
entry has the single key width and no url key at all. -/
theorem c6_counterexample :
    ((convert_result c6Engine "u" 0).images.map fun img => img.map Prod.fst)
        = [["width"]]
  ∧ ((convert_result c6Engine "u" 0).images.all
        fun img => img.any fun kv => kv.1 == "url") = false := by
  decide

/-- C6 (amended): _convert_result totalizes missing fields (absent
title or markdown becomes null, absent links, media or metadata become
empty collections) and normalizes every link entry to the fixed url,
text shape; an image entry is normalized to the fixed url, alt, title
shape only when the source entry is not a dict, while a dict image
entry keeps its own keys with every value coerced to a string (None to
the empty string). -/
theorem c6_amended (r : EngineResult) (u : String) (ct : Nat) :
    (∀ l, l ∈ (convert_result r u ct).links → l.map Prod.fst = ["url", "text"])
  ∧ (∀ img, img ∈ (convert_result r u ct).images →
      (∃ v, PyObj.scalar v ∈ internalImages r
          ∧ img = [("url", pyStr v), ("alt", ""), ("title", "")])
      ∨ (∃ d, PyObj.dict d ∈ internalImages r
          ∧ img = d.map fun kv => (kv.1, coerceImgVal kv.2)))
  ∧ (r.links = none → (convert_result r u ct).links = [])
  ∧ (r.media = none → (convert_result r u ct).images = [])
  ∧ (r.metadata = none → (convert_result r u ct).metadata = [])
  ∧ (r.title = none → (convert_result r u ct).title = none)
  ∧ (r.markdown = none → (convert_result r u ct).content_size = some 0) := by
  refine ⟨?_, ?_, ?_, ?_, ?_, ?_, ?_⟩
  · intro l hl
    simp only [convert_result, List.mem_map] at hl
    obtain ⟨src, _, rfl⟩ := hl
    cases src <;> simp [processLink]
  · intro img himg
    simp only [convert_result, List.mem_map] at himg
    obtain ⟨src, hsrc, rfl⟩ := himg
    cases src with
    | dict d => exact Or.inr ⟨d, hsrc, rfl⟩
    | scalar v => exact Or.inl ⟨v, hsrc, rfl⟩
  · intro h
    simp [convert_result, internalLinks, h]
  · intro h
    simp [convert_result, internalImages, h]
  · intro h
    simp [convert_result, metadataDict, h]
  · intro h
    simp [convert_result, h]
  · intro h
    simp [convert_result, h]

/-- C6 witness: the amended normalization applied to a concrete scalar
link entry, whose produced entry carries exactly the url and text
keys. -/
theorem c6_amended_witness :
    ([("url", "a"), ("text", "")] : List (String × String)).map Prod.fst
      = ["url", "text"] :=
  (c6_amended c6LinkEngine "u" 0).1 [("url", "a"), ("text", "")] (by decide)

end Crawl4aiWeb
